import Mathlib

/-!
# Verification of the ListenerCLI audio capture and transcription pipeline

A shallow embedding, in Lean 4, of the core of `src/ListenerCLI/cli.py`:
the recorder (wave-file sink, audio callback, record control flow), the
transcription runner (segment collection, joining, error wrapping, and the
background-worker / progress-loop coordination), model-name selection, and
the clipboard/stdout delivery tail of `main`.

Python exceptions are modelled by an explicit error type; the functions
that can raise return `Except PyErr _`.  Machine floats appearing in the
sample conversion are modelled by exact rationals at inputs where the
float32 arithmetic of the source is exact.
-/

/-- Python exception classes that appear in `cli.py`, by class and message:
`ValueError`, `RuntimeError`, and OS-level errors raised by file I/O. -/
inductive PyErr where
  | valueError : String → PyErr
  | runtimeError : String → PyErr
  | osError : String → PyErr
deriving DecidableEq, Repr

instance {ε α : Type} [DecidableEq ε] [DecidableEq α] : DecidableEq (Except ε α) :=
  fun a b =>
    match a, b with
    | .error e1, .error e2 =>
      if h : e1 = e2 then .isTrue (by rw [h]) else .isFalse (by intro hc; cases hc; exact h rfl)
    | .error _, .ok _ => .isFalse (by intro hc; cases hc)
    | .ok _, .error _ => .isFalse (by intro hc; cases hc)
    | .ok v1, .ok v2 =>
      if h : v1 = v2 then .isTrue (by rw [h]) else .isFalse (by intro hc; cases hc; exact h rfl)

/-! ## Python string primitives used by `cli.py`

`str.strip()`, `str.lower()` and `" ".join(...)`, modelled over the
character list of a `String`.  (Python strips Unicode whitespace; on the
ASCII data handled here `Char.isWhitespace` agrees with it.) -/

/-- Python `s.strip()`: drop leading and trailing whitespace. -/
def pyStrip (s : String) : String :=
  String.mk (((s.data.dropWhile Char.isWhitespace).reverse.dropWhile
    Char.isWhitespace).reverse)

/-- Python `s.lower()` (ASCII lowering, as used on model names). -/
def pyLower (s : String) : String :=
  String.mk (s.data.map Char.toLower)

/-- Python `sep.join(parts)`. -/
def pyJoin (sep : String) : List String → String
  | [] => ""
  | [x] => x
  | x :: y :: xs => x ++ sep ++ pyJoin sep (y :: xs)

namespace ListenerCLI

/-! ## Transcription runner: segment collection and error wrapping

Embeds the body of `WhisperTranscriber.transcribe` (cli.py:180-247).
The engine (`self.model.transcribe`) is an external collaborator: it is
modelled as an input, either a list of emitted segment texts or a raised
exception (carried as its message string).  Both the `show_progress` and
the plain branch collect segments identically:

    for segment in segments:
        text = segment.text.strip()
        if text:
            transcription_parts.append(text)
    ...
    full_transcription = " ".join(transcription_parts)
    if not full_transcription:
        raise ValueError("No speech detected in audio")

and the whole body sits inside
`except Exception as e: raise RuntimeError(f"Transcription failed: {e}")`. -/

/-- The segment-collection loop of `transcribe`: strip each emitted
segment text, keep only the non-empty results, in engine order. -/
def collectParts (segs : List String) : List String :=
  (segs.map pyStrip).filter (fun t => t ≠ "")

/-- `" ".join(transcription_parts)` on the collected parts. -/
def joinParts (segs : List String) : String :=
  pyJoin " " (collectParts segs)

/-- The observable result of `WhisperTranscriber.transcribe` as a function
of the engine's behaviour: `.error msg` when the engine raises an exception
whose string form is `msg`, `.ok segs` when it emits segments `segs`.
Mirrors the full control flow including the trailing
`except Exception: raise RuntimeError(f"Transcription failed: {e}")`
catch-all, which also re-wraps the runner's own
`ValueError("No speech detected in audio")`. -/
def transcribeResult (engine : Except String (List String)) : Except PyErr String :=
  match engine with
  | .error msg => .error (.runtimeError ("Transcription failed: " ++ msg))
  | .ok segs =>
    if joinParts segs = "" then
      .error (.runtimeError ("Transcription failed: " ++ "No speech detected in audio"))
    else
      .ok (joinParts segs)

/-- The claim that, for a given engine segment output, `transcribe` fails
with an error of a kind distinct from the `RuntimeError` wrapper used for
engine failures — i.e. that the `ValueError` raised for "no speech"
reaches the caller unwrapped. -/
def failsWithDistinctNoSpeechError (segs : List String) : Prop :=
  ∃ msg, transcribeResult (.ok segs) = .error (.valueError msg)

/-! ## Model-name selection

Embeds `WhisperTranscriber.VALID_MODELS` and `_get_model_name`
(cli.py:137-172).  The returned pair records the chosen model name and
whether the invalid-model warning was printed. -/

def VALID_MODELS : List String :=
  ["tiny.en", "tiny", "base.en", "base", "small.en", "small",
   "medium.en", "medium", "large-v1", "large-v2", "large-v3", "large",
   "distil-large-v2", "distil-medium.en", "distil-small.en",
   "distil-large-v3", "distil-large-v3.5", "large-v3-turbo", "turbo"]

/-- `_get_model_name`: `None` selects `"base"`; otherwise the name is
lowercased and checked against `VALID_MODELS`; an unknown name warns and
falls back to `"base"`.  The Boolean records whether the warning fired. -/
def getModelName (model_name : Option String) : String × Bool :=
  match model_name with
  | none => ("base", false)
  | some m =>
    if pyLower m ∈ VALID_MODELS then (pyLower m, false) else ("base", true)

/-! ## Sample conversion in the audio callback

Embeds the conversion of `_audio_callback` (cli.py:62):
`audio_int16 = (indata * 32767).astype(np.int16)`.  NumPy's
`astype(np.int16)` performs a C cast from float to a 16-bit signed
integer, which truncates toward zero; it neither rounds nor clamps.
Samples are modelled as exact rationals; the theorems below use inputs at
which the source's float32 multiplication is exact (the sample and the
product are both representable in 24 significand bits), so the rational
model agrees with the machine arithmetic. -/

/-- Truncation toward zero, the behaviour of a C float-to-int cast. -/
def truncQ (q : ℚ) : ℤ := if 0 ≤ q then ⌊q⌋ else ⌈q⌉

/-- The per-sample conversion performed by the code:
multiply by 32767, then truncate toward zero. -/
def sampleToInt16 (s : ℚ) : ℤ := truncQ (s * 32767)

/-- Modelled from the spec (for comparison with the code's conversion):
`round(sample * 32767)` clamped to the signed-16 range. -/
def specSampleToInt16 (s : ℚ) : ℤ := max (-32768) (min 32767 (round (s * 32767)))

/-! ## The audio callback

Embeds `_audio_callback` (cli.py:58-64):

    if self.wave_file:
        audio_int16 = (indata * 32767).astype(np.int16)
        self.wave_file.writeframes(audio_int16.tobytes())
        self.recording_frames += frames

There is no exception handler: if `writeframes` raises (e.g. `OSError` on
a failed file write), the exception escapes the callback. -/

/-- The callback-visible recorder state: whether `self.wave_file` is set,
and the `self.recording_frames` counter. -/
structure CbState where
  waveOpen : Bool
  frames : Nat
deriving DecidableEq, Repr

/-- `_audio_callback` on one delivered buffer of `nframes` frames.
`writeOk` models whether the underlying `wave_file.writeframes` call
succeeds; on failure its `OSError` propagates out of the callback. -/
def audioCallback (writeOk : Bool) (nframes : Nat) (s : CbState) :
    Except PyErr CbState :=
  if s.waveOpen then
    if writeOk then .ok { s with frames := s.frames + nframes }
    else .error (.osError "write failed")
  else .ok s

/-! ## The recorder: wave-file lifecycle and `record` control flow

Embeds `Recorder._close_wave_file` and `Recorder.record` (cli.py:73-134).
The external world (device query, `wave.open`, `sd.InputStream`, the
interactive session) is modelled by an environment saying which of the
fallible steps succeed, whether a `KeyboardInterrupt` arrives during the
`with stream:` block, whether some other exception is raised there, and
how many frames the callback captured. -/

/-- Outcome of one call to `Recorder.record`: it returns the audio file
path, lets an exception propagate, or calls `sys.exit(code)`. -/
inductive RecOutcome where
  | path : RecOutcome
  | raised : PyErr → RecOutcome
  | procExit : Nat → RecOutcome
deriving DecidableEq, Repr

/-- The recorder state tracked by the model: whether `self.wave_file` is
currently set, how many times the underlying wave handle's `close()` ran,
whether `recording_stop.set()` was called, and `self.recording_frames`. -/
structure RecState where
  waveOpen : Bool
  closeCalls : Nat
  stopSet : Bool
  frames : Nat
deriving DecidableEq, Repr

/-- The environment of one `record()` call: which external steps succeed
(`deviceOk` for `_validate_audio_device`, `prepareOk` for `wave.open`
inside `_prepare_wave_file`, `streamOk` for the `sd.InputStream`
constructor), whether a `KeyboardInterrupt` arrives inside the
`with stream:` block, whether any other exception is raised there, and the
frame count accumulated by the audio callback. -/
structure RecEnv where
  deviceOk : Bool
  prepareOk : Bool
  streamOk : Bool
  interrupted : Bool
  bodyFail : Bool
  frames : Nat
deriving DecidableEq, Repr

/-- `_close_wave_file` (cli.py:73-76): close the underlying handle only if
`self.wave_file` is set, then clear it.  `closeCalls` counts the actual
`wave_file.close()` invocations. -/
def closeWaveFile (s : RecState) : RecState :=
  if s.waveOpen then
    { s with waveOpen := false, closeCalls := s.closeCalls + 1 }
  else s

/-- The initial recorder state at entry to `record()`. -/
def recInit : RecState :=
  { waveOpen := false, closeCalls := 0, stopSet := false, frames := 0 }

/-- `Recorder.record` (cli.py:79-134), step by step:
1. `_validate_audio_device` — on failure raises `RuntimeError` (sink
   untouched);
2. `_prepare_wave_file` — on failure the `OSError` from `wave.open`
   propagates and `self.wave_file` is still `None`;
3. the `sd.InputStream` constructor — on failure the `except` branch
   closes the wave file and raises `RuntimeError`;
4. the `try`/`with stream:` block — on `KeyboardInterrupt` the handler
   sets the stop event, closes the wave file and calls `sys.exit(0)`, and
   the `SystemExit` then passes through the `finally`, which sets the stop
   event and calls `_close_wave_file` again (a no-op, the handle is gone);
   on any other exception or on the normal path the `finally` sets the
   stop event and closes the wave file;
5. after the `finally`, zero captured frames raise
   `ValueError("No audio recorded")`; otherwise the path is returned. -/
def record (env : RecEnv) : RecOutcome × RecState :=
  if ¬env.deviceOk then
    (.raised (.runtimeError "Failed to access audio devices"), recInit)
  else if ¬env.prepareOk then
    (.raised (.osError "wave open failed"), recInit)
  else
    let s1 : RecState := { recInit with waveOpen := true }
    if ¬env.streamOk then
      (.raised (.runtimeError "Failed to record audio"), closeWaveFile s1)
    else
      let s2 : RecState := { s1 with frames := env.frames }
      if env.interrupted then
        let s3 := closeWaveFile { s2 with stopSet := true }
        let s4 := closeWaveFile { s3 with stopSet := true }
        (.procExit 0, s4)
      else if env.bodyFail then
        (.raised (.runtimeError "stream failure"), closeWaveFile { s2 with stopSet := true })
      else
        let s3 := closeWaveFile { s2 with stopSet := true }
        ((if env.frames = 0 then .raised (.valueError "No audio recorded") else .path), s3)

/-- A concrete environment for an interrupted recording: every external
step succeeds and a `KeyboardInterrupt` arrives during the stream block. -/
def envInterrupt : RecEnv :=
  { deviceOk := true, prepareOk := true, streamOk := true,
    interrupted := true, bodyFail := false, frames := 0 }

/-! ## Progress coordination in `transcribe(show_progress=True)`

Embeds the worker/foreground coordination of `WhisperTranscriber.transcribe`
(cli.py:195-231) as a small transition system over all interleavings:

    progress_queue = queue.Queue()
    transcription_complete = threading.Event()
    def transcribe_worker():
        try:    ... ; progress_queue.put(("result", transcription_parts))
        except Exception as e: progress_queue.put(("error", e))
        finally: transcription_complete.set()
    ...
    while not transcription_complete.is_set(): ... time.sleep(1)
    console.print("")
    result_type, result_data = progress_queue.get()

The worker performs exactly one `put` (of the segment list or of the
raised error) and only then sets the event, in its `finally`; the
foreground loop exits only on observing the event and then performs a
single `get`.  Loop iterations that merely render and sleep do not change
the coordination state and are omitted. -/

/-- The value the worker publishes: `("result", transcription_parts)` on
success, or `("error", e)` on failure. -/
inductive TVal where
  | parts : List String → TVal
  | failure : PyErr → TVal
deriving DecidableEq, Repr

/-- The coordination state: whether the worker's single `put` has run, the
queue contents, the `transcription_complete` event, whether the foreground
loop has exited, the value retrieved by `get` (if any), and the total
number of `put`s ever performed. -/
structure PTState where
  published : Bool
  queue : List TVal
  eventSet : Bool
  loopDone : Bool
  consumed : Option TVal
  puts : Nat
deriving DecidableEq, Repr

/-- The initial coordination state, before the worker thread starts. -/
def ptInit : PTState :=
  { published := false, queue := [], eventSet := false, loopDone := false,
    consumed := none, puts := 0 }

/-- How many values have been consumed from the queue (0 or 1). -/
def consumedCount (s : PTState) : Nat := if s.consumed.isSome then 1 else 0

/-- The terminal state of a completed run with worker outcome `o`. -/
def ptFinal (o : TVal) : PTState :=
  { published := true, queue := [], eventSet := true, loopDone := true,
    consumed := some o, puts := 1 }

/-- One atomic step of the coordination, with worker outcome `o`:
the worker's single `put`; the worker's `finally` setting the event (only
after the `put`); the foreground loop observing the event and exiting; the
foreground's single `get` after the loop. -/
inductive PTStep (o : TVal) : PTState → PTState → Prop where
  | publish (s : PTState) (h : s.published = false) :
      PTStep o s { s with published := true, queue := s.queue ++ [o], puts := s.puts + 1 }
  | setEvent (s : PTState) (h1 : s.published = true) (h2 : s.eventSet = false) :
      PTStep o s { s with eventSet := true }
  | observeDone (s : PTState) (h1 : s.eventSet = true) (h2 : s.loopDone = false) :
      PTStep o s { s with loopDone := true }
  | consume (s : PTState) (v : TVal) (rest : List TVal) (h1 : s.loopDone = true)
      (h2 : s.consumed = none) (h3 : s.queue = v :: rest) :
      PTStep o s { s with consumed := some v, queue := rest }

/-- States reachable from the start under any interleaving of steps. -/
inductive PTReach (o : TVal) : PTState → Prop where
  | init : PTReach o ptInit
  | step (s t : PTState) : PTReach o s → PTStep o s t → PTReach o t

/-- The inductive invariant of the coordination: the `put` count matches
the published flag; the event is set only after the `put`; the loop exits
only after the event; no value is lost or duplicated (queue plus consumed
accounts exactly for the `put`s); and every value in flight is the
worker's outcome. -/
def PTInv (o : TVal) (s : PTState) : Prop :=
  s.puts = (if s.published then 1 else 0) ∧
  (s.eventSet = true → s.published = true) ∧
  (s.loopDone = true → s.eventSet = true) ∧
  s.queue.length + consumedCount s = s.puts ∧
  (∀ v ∈ s.queue, v = o) ∧
  (∀ v, s.consumed = some v → v = o)

/-! ## The delivery tail of `main`

Embeds `main` (cli.py:287-314) for a recording invocation (`--last` not
given): record, load the model, transcribe with progress, then deliver —
the clipboard copy sits in its own `try`/`except` that only warns, the
transcript is printed to stdout afterwards; `RuntimeError`/`ValueError`
and the generic catch-all both map to exit code 1; the `SystemExit` raised
by `sys.exit(0)` in the interrupt handler is not an `Exception` and passes
through, ending the process with that code.  Exit code 0 models falling
off the end of `main` normally. -/

/-- The environment of one `main` invocation: the recording environment,
whether `WhisperModel` loads, the engine behaviour, and whether
`pyperclip.copy` succeeds. -/
structure MainEnv where
  recEnv : RecEnv
  modelLoadOk : Bool
  engine : Except String (List String)
  clipboardOk : Bool

/-- The observable outcome of `main`: process exit code, lines printed to
stdout, and whether the clipboard-failure warning was printed. -/
structure MainOut where
  exitCode : Nat
  stdoutLines : List String
  clipWarning : Bool
deriving DecidableEq, Repr

/-- The control flow of `main` on a recording invocation. -/
def mainRun (env : MainEnv) : MainOut :=
  match (record env.recEnv).1 with
  | .procExit c => { exitCode := c, stdoutLines := [], clipWarning := false }
  | .raised _ => { exitCode := 1, stdoutLines := [], clipWarning := false }
  | .path =>
    if env.modelLoadOk then
      match transcribeResult env.engine with
      | .error _ => { exitCode := 1, stdoutLines := [], clipWarning := false }
      | .ok t => { exitCode := 0, stdoutLines := [t], clipWarning := !env.clipboardOk }
    else
      { exitCode := 1, stdoutLines := [], clipWarning := false }

/-! ## Theorems for claims C6, C7, C10 -/

/-- C6: the Transcription Runner collects the engine's emitted segments in
engine order, strips each, discards the empty ones, and joins the rest with
single spaces; in particular on `["Hello", "", "world."]` it returns
`"Hello world."`. -/
theorem transcribe_collects_trims_joins (segs : List String)
    (h : joinParts segs ≠ "") :
    transcribeResult (.ok segs) =
      .ok (pyJoin " " ((segs.map pyStrip).filter (fun t => t ≠ ""))) ∧
    transcribeResult (.ok ["Hello", "", "world."]) = .ok "Hello world." := by
  constructor
  · simp only [transcribeResult, if_neg h]
    rfl
  · decide

/-- Witness for C6 at the spec's concrete example. -/
theorem transcribe_collects_trims_joins_witness :
    joinParts ["Hello", "", "world."] ≠ "" ∧
    (transcribeResult (.ok ["Hello", "", "world."]) =
      .ok (pyJoin " " (((["Hello", "", "world."].map pyStrip).filter
        (fun t => t ≠ "")))) ∧
     transcribeResult (.ok ["Hello", "", "world."]) = .ok "Hello world.") :=
  ⟨by decide, transcribe_collects_trims_joins ["Hello", "", "world."] (by decide)⟩

/-- C7 counterexample: on a whitespace-only engine output the error that
reaches the caller is the `RuntimeError("Transcription failed: ...")`
produced by the method's own catch-all — the same wrapper class used for
engine-raised failures — not a distinct no-speech error class. -/
theorem no_speech_not_distinct_cex :
    transcribeResult (.ok [" ", "\t"]) =
      .error (.runtimeError ("Transcription failed: " ++ "No speech detected in audio")) ∧
    ¬ failsWithDistinctNoSpeechError [" ", "\t"] := by
  constructor
  · decide
  · rintro ⟨msg, hmsg⟩
    have hv : transcribeResult (Except.ok [" ", "\t"]) =
        Except.error (PyErr.runtimeError ("Transcription failed: " ++
          "No speech detected in audio")) := by decide
    rw [hv] at hmsg
    simp at hmsg

/-- C7 (amended): a whitespace-only engine output makes `transcribe` raise
`ValueError("No speech detected in audio")` internally, which its catch-all
re-wraps, so the caller observes
`RuntimeError("Transcription failed: No speech detected in audio")` — the
same exception class as wrapped engine failures; and a successful
transcription never returns empty text. -/
theorem no_speech_raises_wrapped_error (segs : List String)
    (h : ∀ t ∈ segs, pyStrip t = "") :
    transcribeResult (.ok segs) =
      .error (.runtimeError ("Transcription failed: " ++ "No speech detected in audio")) ∧
    (∀ e t, transcribeResult e = .ok t → t ≠ "") := by
  constructor
  · have hparts : collectParts segs = [] := by
      unfold collectParts
      rw [List.filter_eq_nil_iff]
      intro a ha
      rcases List.mem_map.mp ha with ⟨t, ht, rfl⟩
      simp [h t ht]
    have hjoin : joinParts segs = "" := by
      unfold joinParts
      rw [hparts]
      rfl
    simp only [transcribeResult, if_pos hjoin]
  · intro e t ht
    cases e with
    | error m => simp [transcribeResult] at ht
    | ok s2 =>
      by_cases hj : joinParts s2 = ""
      · simp only [transcribeResult, if_pos hj] at ht
        exact Except.noConfusion ht
      · simp only [transcribeResult, if_neg hj] at ht
        injection ht with h3
        rw [← h3]
        exact hj

/-- Witness for C7's amended theorem at a concrete whitespace-only output. -/
theorem no_speech_raises_wrapped_error_witness :
    (∀ t ∈ ([" ", "\t"] : List String), pyStrip t = "") ∧
    transcribeResult (.ok [" ", "\t"]) =
      .error (.runtimeError ("Transcription failed: " ++ "No speech detected in audio")) :=
  ⟨by decide, (no_speech_raises_wrapped_error [" ", "\t"] (by decide)).1⟩

/-- C10: a model name whose lowercased form is not in `VALID_MODELS` falls
back to `"base"` with a warning (no exception); `None` selects `"base"`
silently; a valid name is used lowercased. -/
theorem model_name_fallback (m : String) (h : pyLower m ∉ VALID_MODELS) :
    getModelName (some m) = ("base", true) ∧
    getModelName none = ("base", false) ∧
    ∀ m2, pyLower m2 ∈ VALID_MODELS → getModelName (some m2) = (pyLower m2, false) := by
  refine ⟨?_, rfl, ?_⟩
  · simp only [getModelName, if_neg h]
  · intro m2 h2
    simp only [getModelName, if_pos h2]

/-- Witness for C10 at the unknown model name `"GigANTic"`. -/
theorem model_name_fallback_witness :
    pyLower "GigANTic" ∉ VALID_MODELS ∧
    getModelName (some "GigANTic") = ("base", true) :=
  ⟨by decide, (model_name_fallback "GigANTic" (by decide)).1⟩

/-- C5 counterexample: at the sample 25/32768 (exactly representable in
float32, with an exact float32 product 25·32767/32768 ≈ 24.999), the code's
conversion yields 24 while the spec's `round(sample * 32767)` (clamped)
yields 25: the code truncates toward zero, it does not round. -/
theorem sample_conversion_not_round_cex :
    sampleToInt16 ((25 : ℚ)/32768) = 24 ∧
    specSampleToInt16 ((25 : ℚ)/32768) = 25 ∧
    (24 : ℤ) ≠ 25 := by
  refine ⟨?_, ?_, by decide⟩
  · unfold sampleToInt16 truncQ
    rw [if_pos (by norm_num), Int.floor_eq_iff]
    norm_num
  · have hr : round ((25 : ℚ)/32768 * 32767) = 25 := by
      rw [round_eq, Int.floor_eq_iff]
      norm_num
    unfold specSampleToInt16
    rw [hr]
    decide

/-- C5 (amended): the callback converts each sample by truncating
`sample * 32767` toward zero (floor for nonnegative samples, ceiling for
negative ones), with no rounding; for samples in [-1, 1] the result always
lies in [-32767, 32767], so no clamping is ever applied or needed there. -/
theorem sample_conversion_truncates (s : ℚ) (h1 : -1 ≤ s) (h2 : s ≤ 1) :
    (0 ≤ s → sampleToInt16 s = ⌊s * 32767⌋) ∧
    (s < 0 → sampleToInt16 s = ⌈s * 32767⌉) ∧
    -32767 ≤ sampleToInt16 s ∧ sampleToInt16 s ≤ 32767 := by
  have hx1 : s * 32767 ≤ 32767 := by nlinarith
  have hx2 : (-32767 : ℚ) ≤ s * 32767 := by nlinarith
  refine ⟨?_, ?_, ?_⟩
  · intro hs
    unfold sampleToInt16 truncQ
    rw [if_pos (mul_nonneg hs (by norm_num))]
  · intro hs
    unfold sampleToInt16 truncQ
    rw [if_neg (not_le.mpr (mul_neg_of_neg_of_pos hs (by norm_num)))]
  · unfold sampleToInt16 truncQ
    by_cases hp : 0 ≤ s * 32767
    · rw [if_pos hp]
      refine ⟨?_, ?_⟩
      · have h0 : (0 : ℤ) ≤ ⌊s * 32767⌋ := Int.floor_nonneg.mpr hp
        omega
      · have hle : (⌊s * 32767⌋ : ℚ) ≤ 32767 := le_trans (Int.floor_le _) hx1
        exact_mod_cast hle
    · rw [if_neg hp]
      refine ⟨?_, ?_⟩
      · have hge : (-32767 : ℚ) ≤ (⌈s * 32767⌉ : ℚ) := le_trans hx2 (Int.le_ceil _)
        exact_mod_cast hge
      · have h0 : ⌈s * 32767⌉ ≤ (0 : ℤ) := by
          rw [Int.ceil_le]
          exact_mod_cast le_of_not_le hp
        omega

/-- Witness for C5's amended theorem at the sample 1/2. -/
theorem sample_conversion_truncates_witness :
    ((-1 : ℚ) ≤ 1/2) ∧ ((1/2 : ℚ) ≤ 1) ∧
    (-32767 ≤ sampleToInt16 (1/2) ∧ sampleToInt16 (1/2) ≤ 32767) :=
  ⟨by norm_num, by norm_num,
   (sample_conversion_truncates (1/2) (by norm_num) (by norm_num)).2.2⟩

/-- C8 counterexample: when the wave file is open and the underlying write
fails, the exception escapes `_audio_callback` — the callback has no
handler, so the claim that it never raises is false. -/
theorem callback_raises_on_write_failure_cex :
    audioCallback false 128 { waveOpen := true, frames := 0 } =
      .error (.osError "write failed") := by decide

/-- C8 (amended): `_audio_callback` raises exactly when the wave file is
open and the write fails — the `OSError` propagates out of the callback
uncaught; on a successful write it appends and advances the frame counter,
and when the wave file is `None` it does nothing and cannot raise. -/
theorem callback_error_characterization (writeOk : Bool) (n : Nat) (s : CbState)
    (hopen : s.waveOpen = true) :
    (writeOk = true → audioCallback writeOk n s = .ok { s with frames := s.frames + n }) ∧
    (writeOk = false → audioCallback writeOk n s = .error (.osError "write failed")) ∧
    (∀ s2 : CbState, s2.waveOpen = false → audioCallback writeOk n s2 = .ok s2) := by
  refine ⟨?_, ?_, ?_⟩
  · intro hw
    simp [audioCallback, hopen, hw]
  · intro hw
    simp [audioCallback, hopen, hw]
  · intro s2 h2
    simp [audioCallback, h2]

/-- Witness for C8's amended theorem on an open wave file. -/
theorem callback_error_characterization_witness :
    ({ waveOpen := true, frames := 7 } : CbState).waveOpen = true ∧
    audioCallback true 128 { waveOpen := true, frames := 7 } =
      .ok { waveOpen := true, frames := 135 } :=
  ⟨rfl, by
    have h := (callback_error_characterization true 128
      { waveOpen := true, frames := 7 } rfl).1 rfl
    simpa using h⟩

/-- C2: on every exit path of `record` that runs after the wave file was
prepared, the underlying wave handle is closed exactly once (and the
handle is cleared); `_close_wave_file` is idempotent and is a no-op on a
never-opened sink.  When the wave file was never prepared (device or
`wave.open` failure), no close happens. -/
theorem sink_closed_exactly_once (env : RecEnv) (s : RecState)
    (hdev : env.deviceOk = true) (hprep : env.prepareOk = true) :
    (record env).2.closeCalls = 1 ∧
    (record env).2.waveOpen = false ∧
    closeWaveFile (closeWaveFile s) = closeWaveFile s ∧
    (s.waveOpen = false → closeWaveFile s = s) := by
  refine ⟨?_, ?_, ?_, ?_⟩
  · cases hstream : env.streamOk <;>
      cases hint : env.interrupted <;>
        cases hbody : env.bodyFail <;>
          simp [record, closeWaveFile, recInit, hdev, hprep, hstream, hint, hbody]
  · cases hstream : env.streamOk <;>
      cases hint : env.interrupted <;>
        cases hbody : env.bodyFail <;>
          simp [record, closeWaveFile, recInit, hdev, hprep, hstream, hint, hbody]
  · cases hopen : s.waveOpen <;> simp [closeWaveFile, hopen]
  · intro hopen
    simp [closeWaveFile, hopen]

/-- Witness for C2 on a fully successful recording environment. -/
theorem sink_closed_exactly_once_witness :
    ({ deviceOk := true, prepareOk := true, streamOk := true,
       interrupted := false, bodyFail := false, frames := 5 } : RecEnv).deviceOk = true ∧
    ({ deviceOk := true, prepareOk := true, streamOk := true,
       interrupted := false, bodyFail := false, frames := 5 } : RecEnv).prepareOk = true ∧
    (record { deviceOk := true, prepareOk := true, streamOk := true,
              interrupted := false, bodyFail := false, frames := 5 }).2.closeCalls = 1 :=
  ⟨rfl, rfl,
   (sink_closed_exactly_once ⟨true, true, true, false, false, 5⟩ recInit rfl rfl).1⟩

/-- C3: a recording that captured zero frames never returns a path — when
the session otherwise completes normally it raises
`ValueError("No audio recorded")` — and `record` returns a path only when
the captured frame count is positive. -/
theorem empty_recording_fails (env : RecEnv) (h : env.frames = 0) :
    (record env).1 ≠ .path ∧
    (env.deviceOk = true → env.streamOk = true →
      env.interrupted = false → env.bodyFail = false →
      env.prepareOk = true →
      (record env).1 = .raised (.valueError "No audio recorded")) ∧
    (∀ env2 : RecEnv, (record env2).1 = .path → 0 < env2.frames) := by
  refine ⟨?_, ?_, ?_⟩
  · cases hdev : env.deviceOk <;>
      cases hprep : env.prepareOk <;>
        cases hstream : env.streamOk <;>
          cases hint : env.interrupted <;>
            cases hbody : env.bodyFail <;>
              simp [record, closeWaveFile, recInit, hdev, hprep, hstream, hint, hbody, h]
  · intro hdev hstream hint hbody hprep
    simp [record, closeWaveFile, recInit, hdev, hprep, hstream, hint, hbody, h]
  · intro env2 hpath
    rcases Nat.eq_zero_or_pos env2.frames with hf | hf
    · exfalso
      revert hpath
      cases hdev : env2.deviceOk <;>
        cases hprep : env2.prepareOk <;>
          cases hstream : env2.streamOk <;>
            cases hint : env2.interrupted <;>
              cases hbody : env2.bodyFail <;>
                simp [record, closeWaveFile, recInit, hdev, hprep, hstream, hint, hbody, hf]
    · exact hf

/-- Witness for C3 at an otherwise-successful zero-frame environment. -/
theorem empty_recording_fails_witness :
    ({ deviceOk := true, prepareOk := true, streamOk := true,
       interrupted := false, bodyFail := false, frames := 0 } : RecEnv).frames = 0 ∧
    (record { deviceOk := true, prepareOk := true, streamOk := true,
              interrupted := false, bodyFail := false, frames := 0 }).1 =
      .raised (.valueError "No audio recorded") :=
  ⟨rfl,
   (empty_recording_fails ⟨true, true, true, false, false, 0⟩ rfl).2.1
     rfl rfl rfl rfl rfl⟩

/-- C4 counterexample: on an interrupt during recording the process exits
with code 0 — `record` runs `sys.exit(0)` — so the claimed non-zero
cancellation exit code is false. -/
theorem interrupt_exit_code_cex :
    (record envInterrupt).1 = .procExit 0 ∧
    ¬ ∃ c, (record envInterrupt).1 = .procExit c ∧ c ≠ 0 := by
  have h0 : (record envInterrupt).1 = .procExit 0 := by decide
  refine ⟨h0, ?_⟩
  rintro ⟨c, hc, hne⟩
  rw [h0] at hc
  injection hc with h1
  exact hne h1.symm

/-- C4 (amended): on a `KeyboardInterrupt` during recording the stop event
is set, the wave sink is closed exactly once, no path is returned, and the
process exits immediately — but with exit code 0, not a non-zero code. -/
theorem interrupt_exits_zero (env : RecEnv)
    (hdev : env.deviceOk = true) (hprep : env.prepareOk = true)
    (hstream : env.streamOk = true) (hint : env.interrupted = true) :
    (record env).1 = .procExit 0 ∧
    (record env).2.closeCalls = 1 ∧
    (record env).2.stopSet = true ∧
    (record env).2.waveOpen = false ∧
    (record env).1 ≠ .path := by
  refine ⟨?_, ?_, ?_, ?_, ?_⟩ <;>
    simp [record, closeWaveFile, recInit, hdev, hprep, hstream, hint]

/-- Witness for C4's amended theorem at the concrete interrupt environment. -/
theorem interrupt_exits_zero_witness :
    envInterrupt.deviceOk = true ∧ envInterrupt.interrupted = true ∧
    ((record envInterrupt).1 = .procExit 0 ∧ (record envInterrupt).2.closeCalls = 1) :=
  ⟨rfl, rfl,
   ⟨(interrupt_exits_zero envInterrupt rfl rfl rfl rfl).1,
    (interrupt_exits_zero envInterrupt rfl rfl rfl rfl).2.1⟩⟩

/-- The coordination invariant holds in every reachable state. -/
theorem ptInv_of_reach (o : TVal) (s : PTState) (h : PTReach o s) : PTInv o s := by
  induction h with
  | init => simp [PTInv, ptInit, consumedCount]
  | step s1 s2 _ hstep ih =>
    rcases ih with ⟨ih1, ih2, ih3, ih4, ih5, ih6⟩
    cases hstep with
    | publish hpub =>
      rw [hpub] at ih1
      simp only [Bool.false_eq_true, if_false] at ih1
      refine ⟨by simp [ih1], by simp, ih3, ?_, ?_, ih6⟩
      · show (s1.queue ++ [o]).length + consumedCount s1 = s1.puts + 1
        simp only [List.length_append, List.length_cons, List.length_nil]
        omega
      · intro v hv
        rcases List.mem_append.mp hv with hv1 | hv1
        · exact ih5 v hv1
        · simpa using hv1
    | setEvent h1 h2 =>
      exact ⟨ih1, fun _ => h1, fun _ => rfl, ih4, ih5, ih6⟩
    | observeDone h1 h2 =>
      exact ⟨ih1, ih2, fun _ => h1, ih4, ih5, ih6⟩
    | consume v rest h1 h2 h3 =>
      have hv : v = o := ih5 v (by rw [h3]; exact List.mem_cons_self v rest)
      refine ⟨ih1, ih2, ih3, ?_, ?_, ?_⟩
      · show rest.length + consumedCount { s1 with consumed := some v, queue := rest } = s1.puts
        have hc0 : consumedCount s1 = 0 := by simp [consumedCount, h2]
        have hc1 : consumedCount { s1 with consumed := some v, queue := rest } = 1 := by
          simp [consumedCount]
        rw [h3] at ih4
        simp only [List.length_cons] at ih4
        omega
      · intro u hu
        exact ih5 u (by rw [h3]; exact List.mem_cons_of_mem v hu)
      · intro u hu
        have huv : v = u := Option.some.inj hu
        rw [← huv, hv]

/-- C1: under every interleaving of the worker and the reporting loop, at
most one value is ever published to the single-slot queue; the loop
terminates only after the publish (and then exactly one publish has
happened); the queue plus the consumed slot account exactly for the
publishes, so the value is never lost and never read twice; any consumed
value is the worker's outcome (the segment list on success or the error on
failure); and a complete run consuming it exists. -/
theorem progress_result_exactly_once (o : TVal) (s : PTState) (h : PTReach o s) :
    s.puts ≤ 1 ∧
    (s.loopDone = true → s.published = true ∧ s.puts = 1) ∧
    s.queue.length + consumedCount s = s.puts ∧
    (∀ v, s.consumed = some v → v = o ∧ s.puts = 1) ∧
    PTReach o (ptFinal o) := by
  rcases ptInv_of_reach o s h with ⟨ih1, ih2, ih3, ih4, ih5, ih6⟩
  have hreach : PTReach o (ptFinal o) := by
    have t0 : PTReach o ptInit := PTReach.init
    have t1 := PTReach.step _ _ t0 (PTStep.publish ptInit rfl)
    have t2 := PTReach.step _ _ t1 (PTStep.setEvent _ rfl rfl)
    have t3 := PTReach.step _ _ t2 (PTStep.observeDone _ rfl rfl)
    have t4 := PTReach.step _ _ t3 (PTStep.consume _ o [] rfl rfl rfl)
    exact t4
  refine ⟨?_, ?_, ih4, ?_, hreach⟩
  · rw [ih1]
    cases s.published <;> simp
  · intro hl
    have hpub := ih2 (ih3 hl)
    exact ⟨hpub, by rw [ih1, hpub]; simp⟩
  · intro v hv
    refine ⟨ih6 v hv, ?_⟩
    have hc : consumedCount s = 1 := by simp [consumedCount, hv]
    have hle : s.puts ≤ 1 := by
      rw [ih1]
      cases s.published <;> simp
    omega

/-- Witness for C1 at the initial state with a successful worker outcome. -/
theorem progress_result_exactly_once_witness :
    ptInit.puts ≤ 1 ∧ PTReach (TVal.parts ["hi"]) (ptFinal (TVal.parts ["hi"])) :=
  ⟨(progress_result_exactly_once (TVal.parts ["hi"]) ptInit PTReach.init).1,
   (progress_result_exactly_once (TVal.parts ["hi"]) ptInit PTReach.init).2.2.2.2⟩

/-- C9: a clipboard failure is non-fatal — for every successful recording
and transcription, `main` prints the transcript to stdout and finishes
with exit code 0 whether or not the clipboard copy raises; the failure
only adds a warning. -/
theorem clipboard_failure_nonfatal (env : MainEnv) (t : String)
    (hrec : (record env.recEnv).1 = .path)
    (hmodel : env.modelLoadOk = true)
    (heng : transcribeResult env.engine = .ok t) :
    (mainRun { env with clipboardOk := false }).stdoutLines = [t] ∧
    (mainRun { env with clipboardOk := false }).exitCode = 0 ∧
    (mainRun { env with clipboardOk := false }).clipWarning = true ∧
    (mainRun { env with clipboardOk := true }).stdoutLines = [t] ∧
    (mainRun { env with clipboardOk := true }).exitCode = 0 := by
  refine ⟨?_, ?_, ?_, ?_, ?_⟩ <;> simp [mainRun, hrec, hmodel, heng]

/-- Witness for C9 at a concrete successful run with a failing clipboard. -/
theorem clipboard_failure_nonfatal_witness :
    (record (⟨true, true, true, false, false, 5⟩ : RecEnv)).1 = RecOutcome.path ∧
    transcribeResult (.ok ["hi"]) = .ok "hi" ∧
    (mainRun ⟨⟨true, true, true, false, false, 5⟩, true, .ok ["hi"], false⟩).stdoutLines =
      ["hi"] :=
  ⟨by decide, by decide,
   (clipboard_failure_nonfatal ⟨⟨true, true, true, false, false, 5⟩, true, .ok ["hi"], false⟩
     "hi" (by decide) rfl (by decide)).1⟩

end ListenerCLI
